import Mathlib

/-!
Shallow embedding of the session-aware chat proxy route handlers
(the Next.js route with BACKEND_BASE_URL / sessionCache): the in-memory
session cache, getOrCreateSession, the POST chat handler with its
AbortController timeout, the DELETE session-clearing handler, and the
body of the periodic cleanup interval.

Time is modelled as milliseconds (Nat); each handler invocation receives
the current Date.now() value as a parameter.  JavaScript string
truthiness (null / undefined / "" are falsy) is modelled explicitly by
jsOrStr / jsOrOpt / optTruthy.
-/

namespace SpectrumProxy

/-- Session TTL used by getOrCreateSession and the cleanup sweep:
30 * 60 * 1000 ms (30 minutes). -/
def SESSION_TTL : Nat := 30 * 60 * 1000

/-- REQUEST_TIMEOUT = 120000 ms (2 minutes) for the forwarded chat call. -/
def REQUEST_TIMEOUT : Nat := 120000

/-- One entry of the in-memory sessionCache: a session id issued by the
backend plus the lastActivity timestamp. -/
structure SessionRecord where
  sessionId : String
  lastActivity : Nat
deriving DecidableEq, Repr

/-- The sessionCache object, modelled as an association list keyed by
client id.  At most one entry per key is ever installed. -/
abbrev SessionCache := List (String × SessionRecord)

/-- sessionCache[k] : lookup of a key. -/
def cacheGet (c : SessionCache) (k : String) : Option SessionRecord :=
  (c.find? (fun kv => kv.1 == k)).map (fun kv => kv.2)

/-- sessionCache[k] = v : assignment overwrites the existing entry for k,
or appends a fresh one. -/
def cacheSet (c : SessionCache) (k : String) (v : SessionRecord) : SessionCache :=
  match c with
  | [] => [(k, v)]
  | kv :: rest => if kv.1 = k then (k, v) :: rest else kv :: cacheSet rest k v

/-- delete sessionCache[k]. -/
def cacheDel (c : SessionCache) (k : String) : SessionCache :=
  c.filter (fun kv => !(kv.1 == k))

/-- JavaScript a || b where a is a nullable string and b a string:
null / undefined / "" fall through to b. -/
def jsOrStr (a : Option String) (b : String) : String :=
  match a with
  | none => b
  | some s => if s = "" then b else s

/-- JavaScript a || b where both sides are nullable strings. -/
def jsOrOpt (a b : Option String) : Option String :=
  match a with
  | none => b
  | some s => if s = "" then b else some s

/-- JavaScript truthiness test on a nullable string: some "" and none are
both falsy. -/
def optTruthy (o : Option String) : Option String :=
  match o with
  | none => none
  | some s => if s = "" then none else some s

/-- Outcome of the downstream POST /session fetch made inside
getOrCreateSession.  ok models a 2xx response whose JSON body carries a
session_id string (the downstream contract); httpNotOk models a response
with response.ok false; thrown models a rejected fetch (network error),
which the surrounding try/catch catches and logs. -/
inductive CreateOutcome
  | ok (sessionId : String)
  | httpNotOk
  | thrown
deriving DecidableEq, Repr

/-- Whether the session-creation call failed (non-2xx or network error). -/
def CreateOutcome.failed : CreateOutcome → Bool
  | .ok _ => false
  | .httpNotOk => true
  | .thrown => true

/-- The "Create new session" tail of getOrCreateSession: issues the
downstream POST /session call (the returned Bool records that the call
was made).  On success the record is cached when clientId is truthy; on
failure the cache is untouched and undefined (none) is returned. -/
def createNewSession (cache : SessionCache) (clientId : String) (now : Nat)
    (create : CreateOutcome) : SessionCache × Option String × Bool :=
  match create with
  | .ok sid =>
    ((if clientId ≠ "" then cacheSet cache clientId ⟨sid, now⟩ else cache), some sid, true)
  | .httpNotOk => (cache, none, true)
  | .thrown => (cache, none, true)

/-- getOrCreateSession(clientId): on a cached session younger than
30 minutes, bumps lastActivity and returns the cached id without any
downstream call; otherwise falls through to creating a new session.
Returns (updated cache, session id handed back — none models the
undefined fallback, whether a downstream creation call was issued). -/
def getOrCreateSession (cache : SessionCache) (clientId : String) (now : Nat)
    (create : CreateOutcome) : SessionCache × Option String × Bool :=
  match (if clientId ≠ "" then cacheGet cache clientId else none) with
  | some session =>
    if now - session.lastActivity < SESSION_TTL then
      (cacheSet cache clientId ⟨session.sessionId, now⟩, some session.sessionId, false)
    else
      createNewSession cache clientId now create
  | none => createNewSession cache clientId now create

/-- The body text of a non-2xx downstream response: either text that
JSON.parse accepts as an object (with its optional error and detail
string fields, and the raw text), or text that is not JSON. -/
inductive ErrorBody
  | json (error : Option String) (detail : Option String) (raw : String)
  | nonJson (raw : String)
deriving DecidableEq, Repr

/-- errorJson.error || errorJson.detail || errorText, keeping the raw
text when JSON.parse throws. -/
def extractErrorDetail : ErrorBody → String
  | .json e d raw => jsOrStr e (jsOrStr d raw)
  | .nonJson raw => raw

/-- The parsed JSON body of a 2xx downstream chat response (only the
session_id field matters to the handler's control flow). -/
structure ChatResponseData where
  session_id : Option String
deriving DecidableEq, Repr

/-- What the downstream chat endpoint would answer if awaited without a
deadline: ok (2xx, parseable JSON), okUnparsable (2xx but response.json()
throws), notOk (status ≥ 400 with a body text), connRefused
(ECONNREFUSED), or thrown (any other fetch rejection). -/
inductive DownstreamResponse
  | ok (data : ChatResponseData)
  | okUnparsable (msg : String)
  | notOk (status : Nat) (body : ErrorBody)
  | connRefused
  | thrown (msg : String)
deriving DecidableEq, Repr

/-- Timing behaviour of the downstream chat endpoint: it either produces
its response after delay milliseconds, or never responds. -/
inductive DownstreamBehavior
  | respondsAfter (delay : Nat) (resp : DownstreamResponse)
  | hangs
deriving DecidableEq, Repr

/-- What the awaited fetch of the chat endpoint yields inside the
handler, after the AbortController race. -/
inductive ForwardOutcome
  | success (data : ChatResponseData)
  | successUnparsable (msg : String)
  | httpError (status : Nat) (body : ErrorBody)
  | aborted
  | connRefused
  | thrown (msg : String)
deriving DecidableEq, Repr

/-- The outbound chat fetch under the AbortController deadline: if the
downstream has not responded when the timer fires, the controller aborts
the in-flight call and the fetch rejects with AbortError (aborted). -/
def fetchChat (timeout : Nat) (b : DownstreamBehavior) : ForwardOutcome :=
  match b with
  | .hangs => .aborted
  | .respondsAfter d r =>
    if d < timeout then
      match r with
      | .ok data => .success data
      | .okUnparsable m => .successUnparsable m
      | .notOk s body => .httpError s body
      | .connRefused => .connRefused
      | .thrown m => .thrown m
    else .aborted

/-- The response the POST handler returns to its caller. -/
inductive PostResult
  | success (data : ChatResponseData) (headerSessionId : String)
  | backendError (detail : String) (status : Nat)
  | timeout
  | backendUnavailable
  | internalError (detail : String)
deriving DecidableEq, Repr

/-- The HTTP status the handler attaches to each result shape: 200 on
success, the echoed downstream status on backendError, 504 on timeout,
503 on backend unavailable, 500 on internal error. -/
def PostResult.httpStatus : PostResult → Nat
  | .success _ _ => 200
  | .backendError _ s => s
  | .timeout => 504
  | .backendUnavailable => 503
  | .internalError _ => 500

/-- The parts of an inbound POST request the handler reads: the
x-client-id and x-forwarded-for headers and the clientId, session_id,
message and query fields of the parsed JSON body. -/
structure PostInput where
  hdrClientId : Option String
  hdrForwardedFor : Option String
  bodyClientId : Option String
  bodySessionId : Option String
  bodyMessage : Option String
  bodyQuery : Option String
deriving DecidableEq, Repr

/-- Observable effects of one POST invocation: the response, the final
sessionCache, the resolved client id, whether a downstream
session-creation call was issued, whether the chat forward was issued,
and the session_id / message fields of the forwarded payload. -/
structure PostEffects where
  result : PostResult
  cache : SessionCache
  clientId : String
  creationCalled : Bool
  forwardAttempted : Bool
  forwardedSessionId : Option String
  forwardedMessage : Option String
deriving DecidableEq, Repr

/-- Client-identity resolution:
request.headers.get("x-client-id") || body.clientId ||
request.headers.get("x-forwarded-for") || "default". -/
def resolveClientId (input : PostInput) : String :=
  jsOrStr input.hdrClientId
    (jsOrStr input.bodyClientId (jsOrStr input.hdrForwardedFor "default"))

/-- Session resolution: body.session_id || await getOrCreateSession(clientId).
The || short-circuits: a truthy body.session_id skips getOrCreateSession
entirely (no cache access, no downstream call). -/
def resolveSession (cache : SessionCache) (input : PostInput) (clientId : String)
    (now : Nat) (create : CreateOutcome) : SessionCache × Option String × Bool :=
  match optTruthy input.bodySessionId with
  | some s => (cache, some s, false)
  | none => getOrCreateSession cache clientId now create

/-- The POST chat handler: resolves the client id, resolves the session,
forwards the chat payload to the backend under the 120 s
AbortController deadline, and shapes the response.  On a 2xx response
whose body carries a truthy session_id, the sessionCache entry for a
truthy clientId is overwritten; every other outcome leaves the cache as
session resolution left it. -/
def handlePOST (cache : SessionCache) (input : PostInput) (now : Nat)
    (create : CreateOutcome) (downstream : DownstreamBehavior) : PostEffects :=
  let clientId := resolveClientId input
  let resolved := resolveSession cache input clientId now create
  let cache1 := resolved.1
  let sessionId := resolved.2.1
  let creationCalled := resolved.2.2
  let message := jsOrOpt input.bodyMessage input.bodyQuery
  match fetchChat REQUEST_TIMEOUT downstream with
  | .success data =>
    let cache2 :=
      match optTruthy data.session_id with
      | some sid => if clientId ≠ "" then cacheSet cache1 clientId ⟨sid, now⟩ else cache1
      | none => cache1
    ⟨.success data (jsOrStr data.session_id ""), cache2, clientId, creationCalled,
      true, sessionId, message⟩
  | .successUnparsable m =>
    ⟨.internalError m, cache1, clientId, creationCalled, true, sessionId, message⟩
  | .httpError status body =>
    ⟨.backendError (extractErrorDetail body) status, cache1, clientId, creationCalled,
      true, sessionId, message⟩
  | .aborted =>
    ⟨.timeout, cache1, clientId, creationCalled, true, sessionId, message⟩
  | .connRefused =>
    ⟨.backendUnavailable, cache1, clientId, creationCalled, true, sessionId, message⟩
  | .thrown m =>
    ⟨.internalError m, cache1, clientId, creationCalled, true, sessionId, message⟩

/-- The parts of an inbound DELETE request the handler reads: the
session_id query parameter (null when absent) and the x-client-id
header. -/
structure DeleteInput where
  querySessionId : Option String
  hdrClientId : Option String
deriving DecidableEq, Repr

/-- The DELETE handler's response: 200 with message "Session cleared",
or 400 with error "Session ID required". -/
inductive DeleteResult
  | cleared
  | missingSessionId
deriving DecidableEq, Repr

/-- HTTP status of the DELETE response. -/
def DeleteResult.httpStatus : DeleteResult → Nat
  | .cleared => 200
  | .missingSessionId => 400

/-- The DELETE handler: with a truthy session_id query parameter it
deletes the cache entry for the resolved client id only when that
entry's stored sessionId equals the supplied one, and answers
"Session cleared" either way; without a truthy session_id it answers
400. -/
def handleDELETE (cache : SessionCache) (input : DeleteInput) :
    SessionCache × DeleteResult :=
  let clientId := jsOrStr input.hdrClientId "default"
  match optTruthy input.querySessionId with
  | some sid =>
    (match cacheGet cache clientId with
      | some record => if record.sessionId = sid then cacheDel cache clientId else cache
      | none => cache,
     .cleared)
  | none => (cache, .missingSessionId)

/-- The body of the periodic cleanup interval: deletes every record
whose idle time now - lastActivity strictly exceeds maxAge
(30 * 60 * 1000 ms). -/
def sweep (cache : SessionCache) (now : Nat) : SessionCache :=
  let maxAge := 30 * 60 * 1000
  cache.filter (fun kv => !(decide (now - kv.2.lastActivity > maxAge)))

/-!
Interleaving model of two concurrent getOrCreateSession calls.

getOrCreateSession is an async function whose only suspension point is
the await of the downstream POST /session fetch; the cache check before
it and the cache install after it are each synchronous (atomic) on the
event loop.  A task is therefore a two-segment machine, and a schedule
is the order in which the event loop runs the pending segments.
-/

/-- Progress of one in-flight getOrCreateSession call, split at its
await point. -/
inductive TaskState
  | notStarted
  | awaitingCreate
  | finished (sessionId : Option String)
deriving DecidableEq, Repr

/-- Shared state for two concurrent getOrCreateSession calls on the same
event loop: the shared sessionCache, both task states, and the number of
downstream session-creation calls issued so far. -/
structure ConcState where
  cache : SessionCache
  task1 : TaskState
  task2 : TaskState
  createCalls : Nat
deriving DecidableEq, Repr

/-- Run one atomic segment of a getOrCreateSession call for client cid.
From notStarted: the synchronous prefix — on a cached session younger
than the TTL it bumps lastActivity and finishes at once with the cached
id; otherwise it issues the downstream creation fetch and suspends.
From awaitingCreate: the resumption after the fetch resolves with sid —
installs the record and finishes.  Returns the new cache, the new task
state, and how many creation calls this segment issued. -/
def stepTask (cache : SessionCache) (ts : TaskState) (cid : String) (now : Nat)
    (sid : String) : SessionCache × TaskState × Nat :=
  match ts with
  | .notStarted =>
    match (if cid ≠ "" then cacheGet cache cid else none) with
    | some session =>
      if now - session.lastActivity < SESSION_TTL then
        (cacheSet cache cid ⟨session.sessionId, now⟩, .finished (some session.sessionId), 0)
      else (cache, .awaitingCreate, 1)
    | none => (cache, .awaitingCreate, 1)
  | .awaitingCreate =>
    ((if cid ≠ "" then cacheSet cache cid ⟨sid, now⟩ else cache), .finished (some sid), 0)
  | .finished s => (cache, .finished s, 0)

/-- Run a schedule: each list element advances task 1 (true) or task 2
(false) by one segment.  Both calls are for the same client cid; the
downstream issues sid1 to task 1's creation fetch and sid2 to
task 2's. -/
def runSchedule (cid : String) (now : Nat) (sid1 sid2 : String) :
    List Bool → ConcState → ConcState
  | [], st => st
  | b :: rest, st =>
    if b then
      let r := stepTask st.cache st.task1 cid now sid1
      runSchedule cid now sid1 sid2 rest
        ⟨r.1, r.2.1, st.task2, st.createCalls + r.2.2⟩
    else
      let r := stepTask st.cache st.task2 cid now sid2
      runSchedule cid now sid1 sid2 rest
        ⟨r.1, st.task1, r.2.1, st.createCalls + r.2.2⟩

/-- Initial concurrent state over a given cache: neither call started,
no creation calls issued. -/
def initConc (cache : SessionCache) : ConcState :=
  ⟨cache, .notStarted, .notStarted, 0⟩

/-- Updating the body's session_id field of an inbound request. -/
def setBodySessionId (i : PostInput) (v : Option String) : PostInput :=
  ⟨i.hdrClientId, i.hdrForwardedFor, i.bodyClientId, v, i.bodyMessage, i.bodyQuery⟩

/-- Updating the body's message field of an inbound request. -/
def setBodyMessage (i : PostInput) (v : Option String) : PostInput :=
  ⟨i.hdrClientId, i.hdrForwardedFor, i.bodyClientId, i.bodySessionId, v, i.bodyQuery⟩

/-! Basic lemmas about the handler's observable fields. -/

theorem handlePOST_clientId (cache : SessionCache) (input : PostInput) (now : Nat)
    (create : CreateOutcome) (downstream : DownstreamBehavior) :
    (handlePOST cache input now create downstream).clientId = resolveClientId input := by
  unfold handlePOST
  cases fetchChat REQUEST_TIMEOUT downstream <;> rfl

theorem handlePOST_creationCalled (cache : SessionCache) (input : PostInput) (now : Nat)
    (create : CreateOutcome) (downstream : DownstreamBehavior) :
    (handlePOST cache input now create downstream).creationCalled =
      (resolveSession cache input (resolveClientId input) now create).2.2 := by
  unfold handlePOST
  cases fetchChat REQUEST_TIMEOUT downstream <;> rfl

theorem handlePOST_forwardedSessionId (cache : SessionCache) (input : PostInput) (now : Nat)
    (create : CreateOutcome) (downstream : DownstreamBehavior) :
    (handlePOST cache input now create downstream).forwardedSessionId =
      (resolveSession cache input (resolveClientId input) now create).2.1 := by
  unfold handlePOST
  cases fetchChat REQUEST_TIMEOUT downstream <;> rfl

theorem handlePOST_forwardedMessage (cache : SessionCache) (input : PostInput) (now : Nat)
    (create : CreateOutcome) (downstream : DownstreamBehavior) :
    (handlePOST cache input now create downstream).forwardedMessage =
      jsOrOpt input.bodyMessage input.bodyQuery := by
  unfold handlePOST
  cases fetchChat REQUEST_TIMEOUT downstream <;> rfl

theorem handlePOST_forwardAttempted (cache : SessionCache) (input : PostInput) (now : Nat)
    (create : CreateOutcome) (downstream : DownstreamBehavior) :
    (handlePOST cache input now create downstream).forwardAttempted = true := by
  unfold handlePOST
  cases fetchChat REQUEST_TIMEOUT downstream <;> rfl

theorem handlePOST_result_aborted (cache : SessionCache) (input : PostInput) (now : Nat)
    (create : CreateOutcome) (downstream : DownstreamBehavior)
    (hab : fetchChat REQUEST_TIMEOUT downstream = .aborted) :
    (handlePOST cache input now create downstream).result = .timeout := by
  unfold handlePOST
  rw [hab]

/-- On a failed creation call, createNewSession returns the cache
unchanged, no session id, and records that the downstream call was
made. -/
theorem createNewSession_failed (cache : SessionCache) (cid : String) (now : Nat)
    (create : CreateOutcome) (hfail : create.failed = true) :
    createNewSession cache cid now create = (cache, none, true) := by
  cases create with
  | ok s => simp [CreateOutcome.failed] at hfail
  | httpNotOk => rfl
  | thrown => rfl

/-- getOrCreateSession with a failing downstream creation: either it
never called downstream (live cache hit), or it returned no session id
and left the cache untouched. -/
theorem getOrCreateSession_failed_frame (cache : SessionCache) (cid : String) (now : Nat)
    (create : CreateOutcome) (hfail : create.failed = true) :
    (getOrCreateSession cache cid now create).2.2 = false ∨
    ((getOrCreateSession cache cid now create).2.1 = none ∧
     (getOrCreateSession cache cid now create).1 = cache) := by
  have hc := createNewSession_failed cache cid now create hfail
  unfold getOrCreateSession
  split
  · split
    · exact Or.inl rfl
    · rw [hc]; exact Or.inr ⟨rfl, rfl⟩
  · rw [hc]; exact Or.inr ⟨rfl, rfl⟩

/-- Looking up a deleted key yields nothing. -/
theorem cacheGet_cacheDel_self (c : SessionCache) (k : String) :
    cacheGet (cacheDel c k) k = none := by
  have h : (cacheDel c k).find? (fun kv => kv.1 == k) = none := by
    rw [List.find?_eq_none]
    intro x hx
    have hmem := List.mem_filter.mp hx
    simpa using hmem.2
  unfold cacheGet
  rw [h]
  rfl

/-- Deleting one key leaves find? for any other key unchanged. -/
theorem cacheDel_find? (c : SessionCache) (k k' : String) (h : k' ≠ k) :
    (cacheDel c k).find? (fun kv => kv.1 == k') = c.find? (fun kv => kv.1 == k') := by
  induction c with
  | nil => rfl
  | cons kv rest ih =>
    unfold cacheDel at *
    rw [List.filter_cons]
    by_cases hk : kv.1 = k
    · rw [if_neg (by simp [hk])]
      have hne : ¬ ((kv.1 == k') = true) := by
        simp only [beq_iff_eq, hk]
        exact fun e => h e.symm
      rw [List.find?_cons_of_neg (p := fun kv : String × SessionRecord => kv.1 == k') rest hne]
      exact ih
    · rw [if_pos (by simp [hk])]
      by_cases hk' : (kv.1 == k') = true
      · rw [List.find?_cons_of_pos (p := fun kv : String × SessionRecord => kv.1 == k') _ hk',
          List.find?_cons_of_pos (p := fun kv : String × SessionRecord => kv.1 == k') _ hk']
      · rw [List.find?_cons_of_neg (p := fun kv : String × SessionRecord => kv.1 == k') _ hk',
          List.find?_cons_of_neg (p := fun kv : String × SessionRecord => kv.1 == k') _ hk']
        exact ih

/-- Deleting one key leaves every other key's lookup unchanged. -/
theorem cacheGet_cacheDel_other (c : SessionCache) (k k' : String) (h : k' ≠ k) :
    cacheGet (cacheDel c k) k' = cacheGet c k' := by
  unfold cacheGet
  rw [cacheDel_find? c k k' h]

/-- The handler's behaviour depends on the inbound request only through
identity resolution, session resolution, and the message fallback. -/
theorem handlePOST_congr (cache : SessionCache) (input input' : PostInput) (now : Nat)
    (create : CreateOutcome) (downstream : DownstreamBehavior)
    (h1 : resolveClientId input = resolveClientId input')
    (h2 : resolveSession cache input (resolveClientId input') now create =
      resolveSession cache input' (resolveClientId input') now create)
    (h3 : jsOrOpt input.bodyMessage input.bodyQuery =
      jsOrOpt input'.bodyMessage input'.bodyQuery) :
    handlePOST cache input now create downstream =
      handlePOST cache input' now create downstream := by
  simp only [handlePOST, h1, h2, h3]

/-! Claims -/

/-- Claim C1, as stated, is false: with no session_id in the body and a
downstream session-creation call that throws, the handler does not abort
the request — it forwards the chat request anyway (with no session id)
and, the downstream chat call succeeding here, returns a success, so no
classified failure is surfaced. -/
theorem C1_counterexample_failed_creation_still_forwards :
    CreateOutcome.failed .thrown = true ∧
    (handlePOST [] ⟨some "c", none, none, none, some "hi", none⟩ 0 .thrown
        (.respondsAfter 0 (.ok ⟨some "s9"⟩))).forwardAttempted = true ∧
    (handlePOST [] ⟨some "c", none, none, none, some "hi", none⟩ 0 .thrown
        (.respondsAfter 0 (.ok ⟨some "s9"⟩))).result = .success ⟨some "s9"⟩ "s9" := by
  decide

/-- Claim C1 (amended): when the request carries no truthy session_id and
the downstream session-creation call fails (non-2xx or network error),
the failed creation leaves the session cache unchanged (no partial
record) and yields no session id, but the handler does not abort: it
still attempts the chat forward, with no session_id in the payload. -/
theorem C1_amended_creation_failure_forwards_without_session
    (cache : SessionCache) (input : PostInput) (now : Nat)
    (create : CreateOutcome) (downstream : DownstreamBehavior)
    (hsid : optTruthy input.bodySessionId = none)
    (hfail : create.failed = true)
    (hcall : (handlePOST cache input now create downstream).creationCalled = true) :
    (handlePOST cache input now create downstream).forwardAttempted = true ∧
    (handlePOST cache input now create downstream).forwardedSessionId = none ∧
    (resolveSession cache input (resolveClientId input) now create).1 = cache := by
  have hres : resolveSession cache input (resolveClientId input) now create =
      getOrCreateSession cache (resolveClientId input) now create := by
    unfold resolveSession
    rw [hsid]
  rcases getOrCreateSession_failed_frame cache (resolveClientId input) now create hfail with
    hF | ⟨hn, hc⟩
  · rw [handlePOST_creationCalled, hres, hF] at hcall
    exact absurd hcall (by simp)
  · refine ⟨handlePOST_forwardAttempted cache input now create downstream, ?_, ?_⟩
    · rw [handlePOST_forwardedSessionId, hres, hn]
    · rw [hres, hc]

/-- Witness for C1's amended theorem at a concrete request. -/
theorem C1_amended_witness :
    (handlePOST [] (⟨some "c", none, none, none, some "hi", none⟩ : PostInput) 0
      .thrown .hangs).forwardAttempted = true ∧
    (handlePOST [] (⟨some "c", none, none, none, some "hi", none⟩ : PostInput) 0
      .thrown .hangs).forwardedSessionId = none ∧
    (resolveSession [] (⟨some "c", none, none, none, some "hi", none⟩ : PostInput)
      (resolveClientId ⟨some "c", none, none, none, some "hi", none⟩) 0 .thrown).1 = [] :=
  C1_amended_creation_failure_forwards_without_session []
    ⟨some "c", none, none, none, some "hi", none⟩ 0 .thrown .hangs
    (by decide) (by decide) (by decide)

/-- Claim C2, as stated, is false at the TTL boundary: a record whose
idle time is exactly TTL (30 minutes) is NOT removed by the sweep — the
code tests strictly greater, the claim says greater-or-equal. -/
theorem C2_counterexample_exact_ttl_survives :
    SESSION_TTL - (0 : Nat) ≥ SESSION_TTL ∧
    sweep [("c", ⟨"s", 0⟩)] SESSION_TTL = [("c", ⟨"s", 0⟩)] ∧
    cacheGet (sweep [("c", ⟨"s", 0⟩)] SESSION_TTL) "c" = some ⟨"s", 0⟩ := by
  decide

/-- Claim C2 (amended): the sweep keeps a record iff its idle time is at
most TTL, i.e. removes it iff now - lastActivity strictly exceeds TTL: a
record 1 ms over TTL is removed, a record at exactly TTL or 1 ms under
survives. -/
theorem C2_amended_sweep_keeps_iff_at_most_ttl (cache : SessionCache) (now : Nat)
    (kv : String × SessionRecord) :
    kv ∈ sweep cache now ↔ kv ∈ cache ∧ now - kv.2.lastActivity ≤ SESSION_TTL := by
  unfold sweep SESSION_TTL
  rw [List.mem_filter]
  constructor
  · rintro ⟨ha, hb⟩
    exact ⟨ha, by simpa using hb⟩
  · rintro ⟨ha, hb⟩
    exact ⟨ha, by simpa using hb⟩

/-- Claim C3, as stated, is false: a chat request that finds a live
cached session bumps its lastActivity during session resolution, so
after a failed forward the cached record differs from before the request
(same sessionId, refreshed lastActivity). -/
theorem C3_counterexample_last_activity_bumped :
    (handlePOST [("c", ⟨"s1", 0⟩)] ⟨some "c", none, none, none, some "hi", none⟩ 1000
        (.ok "zzz") (.respondsAfter 0 (.notOk 500 (.nonJson "boom")))).result =
      .backendError "boom" 500 ∧
    (handlePOST [("c", ⟨"s1", 0⟩)] ⟨some "c", none, none, none, some "hi", none⟩ 1000
        (.ok "zzz") (.respondsAfter 0 (.notOk 500 (.nonJson "boom")))).cache =
      [("c", ⟨"s1", 1000⟩)] ∧
    cacheGet (handlePOST [("c", ⟨"s1", 0⟩)] ⟨some "c", none, none, none, some "hi", none⟩
        1000 (.ok "zzz") (.respondsAfter 0 (.notOk 500 (.nonJson "boom")))).cache "c" ≠
      cacheGet [("c", ⟨"s1", 0⟩)] "c" := by
  decide

/-- Claim C3 (amended): on any non-success forward outcome (timeout,
connection refused, non-2xx, unparsable 2xx body, or other error) the
handler performs no cache mutation after the forward: the final cache is
exactly what session resolution produced.  (Resolution itself may
already have refreshed lastActivity on a cache hit, or installed a new
record for a stale one.) -/
theorem C3_amended_failure_leaves_cache_as_resolved
    (cache : SessionCache) (input : PostInput) (now : Nat)
    (create : CreateOutcome) (downstream : DownstreamBehavior)
    (h : ∀ data, fetchChat REQUEST_TIMEOUT downstream ≠ .success data) :
    (handlePOST cache input now create downstream).cache =
      (resolveSession cache input (resolveClientId input) now create).1 := by
  unfold handlePOST
  cases hE : fetchChat REQUEST_TIMEOUT downstream with
  | success data => exact absurd hE (h data)
  | successUnparsable m => rfl
  | httpError status body => rfl
  | aborted => rfl
  | connRefused => rfl
  | thrown m => rfl

/-- Witness for C3's amended theorem at a concrete request whose forward
hangs. -/
theorem C3_amended_witness :
    (handlePOST [("c", ⟨"s1", 0⟩)] (⟨some "c", none, none, none, some "hi", none⟩ : PostInput)
      1000 (.ok "zzz") .hangs).cache =
      (resolveSession [("c", ⟨"s1", 0⟩)] ⟨some "c", none, none, none, some "hi", none⟩
        (resolveClientId ⟨some "c", none, none, none, some "hi", none⟩) 1000 (.ok "zzz")).1 :=
  C3_amended_failure_leaves_cache_as_resolved [("c", ⟨"s1", 0⟩)]
    ⟨some "c", none, none, none, some "hi", none⟩ 1000 (.ok "zzz") .hangs
    (fun _ hEq => ForwardOutcome.noConfusion hEq)

/-- Claim C4, as stated, is false: a downstream 500 with a non-JSON body
is answered with the downstream's own status 500, not with 502. -/
theorem C4_counterexample_status_echoed_not_502 :
    (handlePOST [] ⟨some "c", none, none, none, some "hi", none⟩ 0 (.ok "s1")
        (.respondsAfter 0 (.notOk 500 (.nonJson "<html>Server Error</html>")))).result =
      .backendError "<html>Server Error</html>" 500 ∧
    (handlePOST [] ⟨some "c", none, none, none, some "hi", none⟩ 0 (.ok "s1")
        (.respondsAfter 0 (.notOk 500 (.nonJson "<html>Server Error</html>")))).result.httpStatus
      = 500 ∧
    ¬ ((handlePOST [] ⟨some "c", none, none, none, some "hi", none⟩ 0 (.ok "s1")
        (.respondsAfter 0 (.notOk 500 (.nonJson "<html>Server Error</html>")))).result.httpStatus
      = 502) := by
  decide

/-- Claim C4 (amended): for every downstream non-ok response arriving
before the deadline, whatever its body (parsable JSON or not), the
handler echoes the downstream status as its own HTTP status and uses the
best-effort detail (error field, else detail field, else the raw
text). -/
theorem C4_amended_echoes_downstream_status
    (cache : SessionCache) (input : PostInput) (now : Nat) (create : CreateOutcome)
    (delay status : Nat) (body : ErrorBody)
    (hdelay : delay < REQUEST_TIMEOUT) :
    (handlePOST cache input now create (.respondsAfter delay (.notOk status body))).result =
      .backendError (extractErrorDetail body) status ∧
    (handlePOST cache input now create
      (.respondsAfter delay (.notOk status body))).result.httpStatus = status := by
  have hE : fetchChat REQUEST_TIMEOUT (.respondsAfter delay (.notOk status body)) =
      .httpError status body := by
    simp only [fetchChat]
    rw [if_pos hdelay]
  constructor
  · unfold handlePOST
    rw [hE]
  · unfold handlePOST
    rw [hE]
    rfl

/-- Witness for C4's amended theorem at a concrete 500 with an HTML
body. -/
theorem C4_amended_witness :
    (handlePOST [] (⟨some "c", none, none, none, some "hi", none⟩ : PostInput) 0 (.ok "s1")
      (.respondsAfter 0 (.notOk 500 (.nonJson "boom")))).result =
      .backendError (extractErrorDetail (.nonJson "boom")) 500 :=
  (C4_amended_echoes_downstream_status [] ⟨some "c", none, none, none, some "hi", none⟩
    0 (.ok "s1") 0 500 (.nonJson "boom") (by decide)).1

/-- Claim C5, as stated, is false: under the interleaving in which both
calls pass the cache check before either creation fetch resolves, two
downstream session-creation calls are made and the two callers observe
different session ids. -/
theorem C5_counterexample_interleaved_double_create :
    (runSchedule "c" 0 "s1" "s2" [true, false, true, false] (initConc [])).createCalls = 2 ∧
    (runSchedule "c" 0 "s1" "s2" [true, false, true, false] (initConc [])).task1 =
      .finished (some "s1") ∧
    (runSchedule "c" 0 "s1" "s2" [true, false, true, false] (initConc [])).task2 =
      .finished (some "s2") ∧
    ¬ ((runSchedule "c" 0 "s1" "s2" [true, false, true, false] (initConc [])).createCalls = 1) := by
  decide

/-- Claim C5 (amended): getOrCreateSession has no per-key mutual
exclusion around its check-then-act sequence.  When the two calls
overlap (both check the empty cache before either creation resolves),
each issues its own downstream creation call and observes its own id,
and the later install wins the cache; only when one call completes
before the other starts does the second reuse the first's session with a
single creation call. -/
theorem C5_amended_no_mutual_exclusion :
    runSchedule "c" 0 "s1" "s2" [true, false, true, false] (initConc []) =
      ⟨[("c", ⟨"s2", 0⟩)], .finished (some "s1"), .finished (some "s2"), 2⟩ ∧
    runSchedule "c" 0 "s1" "s2" [true, true, false] (initConc []) =
      ⟨[("c", ⟨"s1", 0⟩)], .finished (some "s1"), .finished (some "s1"), 1⟩ := by
  decide

/-- Claim C6, as stated, is false: a DELETE whose session_id does not
match the cached record's id answers "Session cleared" but does NOT
remove the record — removal is conditional on the id matching, not
unconditional. -/
theorem C6_counterexample_mismatched_id_not_removed :
    handleDELETE [("c", ⟨"s1", 0⟩)] ⟨some "s2", some "c"⟩ =
      ([("c", ⟨"s1", 0⟩)], .cleared) ∧
    cacheGet (handleDELETE [("c", ⟨"s1", 0⟩)] ⟨some "s2", some "c"⟩).1 "c" =
      some ⟨"s1", 0⟩ := by
  decide

/-- Claim C6 (amended): a DELETE without a truthy session_id answers 400
with the cache untouched; a DELETE with a truthy session_id answers
"Session cleared" unconditionally (an absent key is not an error),
leaves every other key untouched, and removes the resolved client's
record iff that record exists and stores exactly the supplied session
id. -/
theorem C6_amended_conditional_removal (cache : SessionCache) (input : DeleteInput) :
    (optTruthy input.querySessionId = none →
      handleDELETE cache input = (cache, .missingSessionId)) ∧
    (∀ sid, optTruthy input.querySessionId = some sid →
      (handleDELETE cache input).2 = .cleared ∧
      (∀ k, k ≠ jsOrStr input.hdrClientId "default" →
        cacheGet (handleDELETE cache input).1 k = cacheGet cache k) ∧
      (cacheGet (handleDELETE cache input).1 (jsOrStr input.hdrClientId "default") = none ↔
        (cacheGet cache (jsOrStr input.hdrClientId "default") = none ∨
         ∃ rec, cacheGet cache (jsOrStr input.hdrClientId "default") = some rec ∧
           rec.sessionId = sid))) := by
  constructor
  · intro h
    simp only [handleDELETE, h]
  · intro sid h
    simp only [handleDELETE, h]
    cases hrec : cacheGet cache (jsOrStr input.hdrClientId "default") with
    | none =>
      exact ⟨trivial, fun k hk => rfl, ⟨fun _ => Or.inl rfl, fun _ => hrec⟩⟩
    | some record =>
      dsimp only
      by_cases hmatch : record.sessionId = sid
      · rw [if_pos hmatch]
        refine ⟨trivial, fun k hk =>
          cacheGet_cacheDel_other cache (jsOrStr input.hdrClientId "default") k hk, ?_, ?_⟩
        · intro _
          exact Or.inr ⟨record, rfl, hmatch⟩
        · intro _
          exact cacheGet_cacheDel_self cache (jsOrStr input.hdrClientId "default")
      · rw [if_neg hmatch]
        refine ⟨trivial, fun k hk => rfl, ?_, ?_⟩
        · intro hnone
          rw [hrec] at hnone
          exact Option.noConfusion hnone
        · rintro (hnone | ⟨rec, hrec', hsid⟩)
          · exact Option.noConfusion hnone
          · injection hrec' with e
            rw [← e] at hsid
            exact absurd hsid hmatch

/-- Witness for C6's amended theorem: a matching DELETE removes the
record and reports "Session cleared". -/
theorem C6_amended_witness :
    (handleDELETE [("c", ⟨"s1", 0⟩)] ⟨some "s1", some "c"⟩).2 = DeleteResult.cleared ∧
    cacheGet (handleDELETE [("c", ⟨"s1", 0⟩)] ⟨some "s1", some "c"⟩).1 "c" = none := by
  have h := (C6_amended_conditional_removal [("c", ⟨"s1", 0⟩)] ⟨some "s1", some "c"⟩).2
    "s1" (by decide)
  exact ⟨h.1, h.2.2.mpr (Or.inr ⟨⟨"s1", 0⟩, by decide, rfl⟩)⟩

/-- Claim C7 (confirmed): the deadline is 120000 ms; whenever the
downstream has not produced a response by that deadline (it hangs, or
its delay is at least the timeout), the in-flight call is aborted
(AbortError) and the caller receives the Timeout result with HTTP status
504. -/
theorem C7_deadline_aborts_with_504
    (cache : SessionCache) (input : PostInput) (now : Nat) (create : CreateOutcome)
    (downstream : DownstreamBehavior)
    (h : downstream = .hangs ∨
      ∃ d r, downstream = .respondsAfter d r ∧ REQUEST_TIMEOUT ≤ d) :
    REQUEST_TIMEOUT = 120000 ∧
    fetchChat REQUEST_TIMEOUT downstream = .aborted ∧
    (handlePOST cache input now create downstream).result = .timeout ∧
    (handlePOST cache input now create downstream).result.httpStatus = 504 := by
  have hab : fetchChat REQUEST_TIMEOUT downstream = .aborted := by
    rcases h with h | ⟨d, r, h, hd⟩
    · rw [h]
      rfl
    · rw [h]
      simp only [fetchChat]
      rw [if_neg (Nat.not_lt.mpr hd)]
  refine ⟨rfl, hab, handlePOST_result_aborted cache input now create downstream hab, ?_⟩
  rw [handlePOST_result_aborted cache input now create downstream hab]
  rfl

/-- Witness for C7 at a hanging downstream. -/
theorem C7_witness :
    REQUEST_TIMEOUT = 120000 ∧
    (handlePOST [] (⟨some "c", none, none, none, some "hi", none⟩ : PostInput) 0
      (.ok "s1") .hangs).result = PostResult.timeout :=
  ⟨(C7_deadline_aborts_with_504 [] ⟨some "c", none, none, none, some "hi", none⟩ 0
      (.ok "s1") .hangs (Or.inl rfl)).1,
   (C7_deadline_aborts_with_504 [] ⟨some "c", none, none, none, some "hi", none⟩ 0
      (.ok "s1") .hangs (Or.inl rfl)).2.2.1⟩

/-- Claim C8 (confirmed): the client identity is resolved in exactly the
fixed order x-client-id header, then the body's clientId field, then the
x-forwarded-for header, then the "default" sentinel — stated for
requests whose supplied values are non-empty, since the code's || chain
treats an empty string as absent. -/
theorem C8_identity_resolution_order
    (cache : SessionCache) (input : PostInput) (now : Nat) (create : CreateOutcome)
    (downstream : DownstreamBehavior)
    (h1 : input.hdrClientId ≠ some "") (h2 : input.bodyClientId ≠ some "")
    (h3 : input.hdrForwardedFor ≠ some "") :
    (handlePOST cache input now create downstream).clientId =
      (match input.hdrClientId, input.bodyClientId, input.hdrForwardedFor with
       | some v, _, _ => v
       | none, some v, _ => v
       | none, none, some v => v
       | none, none, none => "default") := by
  rw [handlePOST_clientId]
  obtain ⟨hc, hf, bc, bs, bm, bq⟩ := input
  simp only at h1 h2 h3
  unfold resolveClientId jsOrStr
  cases hc with
  | some v =>
    have hv : v ≠ "" := fun e => h1 (congrArg some e)
    simp [hv]
  | none =>
    cases bc with
    | some v =>
      have hv : v ≠ "" := fun e => h2 (congrArg some e)
      simp [hv]
    | none =>
      cases hf with
      | some v =>
        have hv : v ≠ "" := fun e => h3 (congrArg some e)
        simp [hv]
      | none => rfl

/-- Witness for C8 with all three identity sources supplied. -/
theorem C8_witness :
    (handlePOST [] (⟨some "hdr-id", some "fwd-id", some "body-id", none, some "hi", none⟩ :
      PostInput) 0 (.ok "s1") .hangs).clientId = "hdr-id" :=
  C8_identity_resolution_order [] ⟨some "hdr-id", some "fwd-id", some "body-id", none,
    some "hi", none⟩ 0 (.ok "s1") .hangs (by decide) (by decide) (by decide)

/-- Claim C9 (confirmed): a request carrying a truthy (non-empty)
session_id in its body forwards exactly that id, issues no downstream
session-creation call, and leaves session resolution a no-op on the
cache — the || short-circuit never reaches getOrCreateSession. -/
theorem C9_explicit_session_id_wins
    (cache : SessionCache) (input : PostInput) (now : Nat) (create : CreateOutcome)
    (downstream : DownstreamBehavior) (s : String)
    (hs : input.bodySessionId = some s) (hne : s ≠ "") :
    (handlePOST cache input now create downstream).forwardedSessionId = some s ∧
    (handlePOST cache input now create downstream).creationCalled = false ∧
    resolveSession cache input (resolveClientId input) now create = (cache, some s, false) := by
  have hres : resolveSession cache input (resolveClientId input) now create =
      (cache, some s, false) := by
    unfold resolveSession optTruthy
    rw [hs]
    simp [hne]
  exact ⟨by rw [handlePOST_forwardedSessionId, hres],
    by rw [handlePOST_creationCalled, hres], hres⟩

/-- Witness for C9 at a concrete explicit session id. -/
theorem C9_witness :
    (handlePOST [("c", ⟨"old", 0⟩)] (⟨some "c", none, none, some "sess-7", some "hi", none⟩ :
      PostInput) 5 (.ok "fresh") .hangs).forwardedSessionId = some "sess-7" ∧
    (handlePOST [("c", ⟨"old", 0⟩)] (⟨some "c", none, none, some "sess-7", some "hi", none⟩ :
      PostInput) 5 (.ok "fresh") .hangs).creationCalled = false :=
  ⟨(C9_explicit_session_id_wins [("c", ⟨"old", 0⟩)]
      ⟨some "c", none, none, some "sess-7", some "hi", none⟩ 5 (.ok "fresh") .hangs
      "sess-7" rfl (by decide)).1,
   (C9_explicit_session_id_wins [("c", ⟨"old", 0⟩)]
      ⟨some "c", none, none, some "sess-7", some "hi", none⟩ 5 (.ok "fresh") .hangs
      "sess-7" rfl (by decide)).2.1⟩

/-- Claim C10 (confirmed): a session_id equal to the empty string is
treated exactly as an absent one (the whole request behaves identically),
and an empty message string falls back to the body's query field as the
forwarded message. -/
theorem C10_empty_strings_are_falsy
    (cache : SessionCache) (input : PostInput) (now : Nat) (create : CreateOutcome)
    (downstream : DownstreamBehavior) :
    handlePOST cache (setBodySessionId input (some "")) now create downstream =
      handlePOST cache (setBodySessionId input none) now create downstream ∧
    (handlePOST cache (setBodyMessage input (some "")) now create downstream).forwardedMessage =
      input.bodyQuery := by
  constructor
  · exact handlePOST_congr cache (setBodySessionId input (some ""))
      (setBodySessionId input none) now create downstream rfl
      (by unfold resolveSession; rfl) rfl
  · rw [handlePOST_forwardedMessage]
    rfl

end SpectrumProxy
